import Mathlib

/-!
Verification of the BloggingApp users API against its specification.

The definitions below are a shallow embedding of the users router
(`src/index.js` in this repository: the Express router mounted at
`/api/users`) together with the small primitives it calls.  Pieces of the
repository that are referenced but whose source is not present
(`userController`, the validators, the auth middleware, the error-handler
middleware, and the external `bcrypt` / `jsonwebtoken` primitives) are
modelled from the specification; each such definition carries a doc
comment saying so.
-/

set_option autoImplicit false

namespace BloggingApp

/-- Modelled from the spec: `bcrypt`'s salted hash (§4.1 Password Hasher).
The per-call random salt is made explicit as a parameter; the one-way
digest is modelled as an injective function of the salt and the
plaintext, represented by keeping both components (one-wayness is not a
property under verification). -/
structure BcryptHash where
  salt : String
  digest : String
deriving DecidableEq

/-- Modelled from the spec: `bcrypt.hashSync(plaintext, saltRounds)` with the
per-call random salt passed explicitly.  The salt is baked into the output. -/
def hashSync (plaintext : String) (salt : String) : BcryptHash :=
  ⟨salt, plaintext⟩

/-- Modelled from the spec: `bcrypt.compareSync(plaintext, hashed)` recomputes
the digest using the salt embedded in `hashed` and reports equality. -/
def compareSync (plaintext : String) (hashed : BcryptHash) : Bool :=
  (hashSync plaintext hashed.salt).digest == hashed.digest

/-- Rendering of a stored hash as the string kept in the `password` column
(salt and digest concatenated, as bcrypt embeds the salt in its output). -/
def renderHash (h : BcryptHash) : String :=
  String.append (String.append h.salt "$") h.digest

/-- A user record as persisted by the credential store (spec §3: identity,
display name, unique email, password hash). -/
structure User where
  id : Nat
  name : String
  email : String
  password : BcryptHash
deriving DecidableEq

/-- The claim carried by a JWT issued at login: the user's id and an
expiration timestamp (seconds). -/
structure JwtClaim where
  id : Nat
  exp : Nat
deriving DecidableEq

/-- Modelled from the spec: an HMAC signature over a claim with the shared
secret, represented by the pair that determines it. -/
structure JwtSig where
  secret : String
  signed : JwtClaim
deriving DecidableEq

/-- A signed token: the claim plus its signature. -/
structure JwtToken where
  claim : JwtClaim
  sig : JwtSig
deriving DecidableEq

/-- Modelled from the spec: the `expiresIn: "1h"` option passed to
`jwt.sign` in the login handler, one hour in seconds. -/
def expiresIn1h : Nat := 3600

/-- `jwt.sign({ id: userId }, secret, { expiresIn: "1h" })` as called in the
login handler (src/index.js lines 235-237): embeds the user id and an
expiration of `now` plus one hour, signed with the shared secret. -/
def jwtSign (userId : Nat) (secret : String) (now : Nat) : JwtToken :=
  { claim := ⟨userId, now + expiresIn1h⟩
  , sig := ⟨secret, ⟨userId, now + expiresIn1h⟩⟩ }

/-- Modelled from the spec: `verify(token) -> userId | Rejected` (§4.2):
recomputes the signature over the claim and rejects on mismatch (tamper)
or when the current time has reached the expiration. -/
def jwtVerify (t : JwtToken) (secret : String) (time : Nat) : Option Nat :=
  if t.sig = ⟨secret, t.claim⟩ ∧ time < t.claim.exp then some t.claim.id
  else none

/-- JSON values as sent in response bodies.  Tokens appear as opaque leaf
values (on the wire they are strings). -/
inductive Json where
  | str : String → Json
  | num : Nat → Json
  | arr : List Json → Json
  | obj : List (String × Json) → Json
  | tok : JwtToken → Json

/-- Field lookup in a JSON object (`none` on non-objects). -/
def Json.getField (j : Json) (k : String) : Option Json :=
  match j with
  | .obj fields => fields.lookup k
  | _ => none

/-- The JSON serialization of a user record, field for field, including the
stored password hash string in the `password` column. -/
def userToJson (u : User) : Json :=
  .obj [("id", .num u.id), ("name", .str u.name), ("email", .str u.email),
        ("password", .str (renderHash u.password))]

/-- A field-level validation error (spec §3 Validation Result: field name
plus message). -/
structure FieldError where
  field : String
  msg : String
deriving DecidableEq

/-- Modelled from the spec: the JSON shape of one `express-validator` error
descriptor (field name and message). -/
def fieldErrorToJson (e : FieldError) : Json :=
  .obj [("msg", .str e.msg), ("path", .str e.field)]

/-- An HTTP response: status and optional JSON body.  `res.sendStatus(404)`
produces a bare status with no JSON body (`body = none`). -/
structure Response where
  status : Nat
  body : Option Json

/-- A route handler's observable behaviour on one request: the response it
sends and whether the persistence/business-logic layer was reached. -/
structure HandlerResult where
  response : Response
  persisted : Bool

/-- Modelled from the spec: `userController.getUserByEmail` — look up a user
by exact email match (§4.5 step 1). -/
def getUserByEmail (db : List User) (email : String) : Option User :=
  db.find? (fun u => u.email == email)

/-- Decimal parse of a digit list, accumulator style; fails on any
non-digit character. -/
def parseNatAux : List Char → Nat → Option Nat
  | [], acc => some acc
  | c :: cs, acc =>
      if c.isDigit then parseNatAux cs (acc * 10 + (c.toNat - 48)) else none

/-- Modelled from the spec: decimal parse of a path parameter — `some n`
exactly when the string is a nonempty run of digits. -/
def parseNat? (s : String) : Option Nat :=
  if s.data.isEmpty then none else parseNatAux s.data 0

/-- Modelled from the spec: `userController.getUser` — persistence read of a
user by identity; the path parameter arrives as a string. -/
def getUser (db : List User) (idStr : String) : Option User :=
  match parseNat? idStr with
  | none => none
  | some n => db.find? (fun u => u.id == n)

/-- Modelled from the spec: `idParamValidator` — the `:id` path parameter
must be a positive integer (§6, §8). -/
def idParamValidator (idStr : String) : List FieldError :=
  match parseNat? idStr with
  | none => [⟨"id", "must be a positive integer"⟩]
  | some n => if n > 0 then [] else [⟨"id", "must be a positive integer"⟩]

/-- The fields of a `POST /api/users` request body. -/
structure NewUserRequest where
  name : String
  email : String
  password : String

/-- The fields of a `PUT /api/users/:id` request body. -/
structure UserUpdate where
  name : String
  email : String

/-- Modelled from the spec: `userController.createUser` — persist a new user
record (already-hashed password) under a fresh identity and return the
created record together with the new store contents. -/
def createUser (db : List User) (name email : String) (hashed : BcryptHash) :
    User × List User :=
  let nu : User := ⟨db.length + 1, name, email, hashed⟩
  (nu, db ++ [nu])

/-- Modelled from the spec: `userController.updateUser` — update the record
with the given identity; returns the Sequelize-style affected-row count
(first component of the `update` result array) and the new store contents. -/
def updateUser (db : List User) (idStr : String) (upd : UserUpdate) :
    Nat × List User :=
  match parseNat? idStr with
  | none => (0, db)
  | some n =>
      if db.any (fun u => u.id == n) then
        (1, db.map (fun u => if u.id == n then
          { u with name := upd.name, email := upd.email } else u))
      else (0, db)

/-- Modelled from the spec: `userController.deleteUser` — destroy the record
with the given identity; returns the number of rows destroyed and the new
store contents. -/
def deleteUser (db : List User) (idStr : String) : Nat × List User :=
  match parseNat? idStr with
  | none => (0, db)
  | some n =>
      let remaining := db.filter (fun u => !(u.id == n))
      (db.length - remaining.length, remaining)

/-- The outcome of the authorization middleware (spec §4.3): either the
request is rejected, or it proceeds with the resolved user identity. -/
inductive AuthOutcome where
  | rejected : AuthOutcome
  | authenticated : Nat → AuthOutcome

/-- Modelled from the spec: the `verifyToken` middleware (§4.3) — extract the
token from the request; if it is absent or `verify` rejects it, reject with
401; otherwise attach the resolved identity and continue. -/
def verifyTokenMw (tok : Option JwtToken) (secret : String) (time : Nat) :
    AuthOutcome :=
  match tok with
  | none => .rejected
  | some t =>
      match jwtVerify t secret time with
      | none => .rejected
      | some uid => .authenticated uid

/-- The `GET /` handler of the users router (src/index.js lines 81-89),
guarded by `verifyToken`: on an authenticated request it fetches all users
and sends `{ result: 200, data }`. -/
def getUsersHandler (db : List User) (tok : Option JwtToken) (secret : String)
    (time : Nat) : HandlerResult :=
  match verifyTokenMw tok secret time with
  | .rejected => ⟨⟨401, none⟩, false⟩
  | .authenticated _ =>
      ⟨⟨200, some (.obj [("result", .num 200),
                         ("data", .arr (db.map userToJson))])⟩, true⟩

/-- The `GET /:id` handler (src/index.js lines 116-134): if validation
passed, fetch the user by id; a missing record yields `res.sendStatus(404)`
(bare status); otherwise `{ result: 200, data }`.  On validation errors it
responds `422 { errors }` without touching persistence. -/
def getUserHandler (db : List User) (idStr : String)
    (errors : List FieldError) : HandlerResult :=
  if errors.isEmpty then
    match getUser db idStr with
    | none => ⟨⟨404, none⟩, true⟩
    | some u => ⟨⟨200, some (.obj [("result", .num 200),
                                   ("data", userToJson u)])⟩, true⟩
  else ⟨⟨422, some (.obj [("errors", .arr (errors.map fieldErrorToJson))])⟩,
        false⟩

/-- The `POST /` handler (src/index.js lines 174-190): if validation passed,
hash the password and create the user, echoing the created record; on
validation errors respond `422 { errors }` without hashing or persisting. -/
def createUserHandler (db : List User) (req : NewUserRequest) (salt : String)
    (errors : List FieldError) : HandlerResult :=
  if errors.isEmpty then
    let hashed := hashSync req.password salt
    let created := createUser db req.name req.email hashed
    ⟨⟨200, some (.obj [("result", .num 200),
                       ("data", userToJson created.1)])⟩, true⟩
  else ⟨⟨422, some (.obj [("errors", .arr (errors.map fieldErrorToJson))])⟩,
        false⟩

/-- The `POST /login` handler (src/index.js lines 229-252), translated
branch for branch: the validation result is computed and `getUserByEmail`
is called unconditionally; a found user with a matching password yields
`200 { result: 200, data: { token, user } }` with the full user record in
the payload; a found user with a mismatching password yields
`404 { errors: ["Invalid email or password"] }`; no user yields
`404 { errors }` with the validator-error array. -/
def loginHandler (db : List User) (errors : List FieldError) (secret : String)
    (now : Nat) (email password : String) : HandlerResult :=
  match getUserByEmail db email with
  | some user =>
      if compareSync password user.password then
        let token := jwtSign user.id secret now
        ⟨⟨200, some (.obj [("result", .num 200),
                           ("data", .obj [("token", .tok token),
                                          ("user", userToJson user)])])⟩, true⟩
      else
        ⟨⟨404, some (.obj [("errors",
                            .arr [.str "Invalid email or password"])])⟩, true⟩
  | none =>
      ⟨⟨404, some (.obj [("errors",
                          .arr (errors.map fieldErrorToJson))])⟩, true⟩

/-- The `PUT /:id` handler (src/index.js lines 300-317): if validation
passed, run the update; an affected-row count of 0 yields
`res.sendStatus(404)`; otherwise the count array is echoed.  On validation
errors respond `422 { errors }` without touching persistence. -/
def updateUserHandler (db : List User) (idStr : String) (upd : UserUpdate)
    (errors : List FieldError) : HandlerResult :=
  if errors.isEmpty then
    let r := updateUser db idStr upd
    if r.1 = 0 then ⟨⟨404, none⟩, true⟩
    else ⟨⟨200, some (.obj [("result", .num 200),
                            ("data", .arr [.num r.1])])⟩, true⟩
  else ⟨⟨422, some (.obj [("errors", .arr (errors.map fieldErrorToJson))])⟩,
        false⟩

/-- The `DELETE /:id` handler (src/index.js lines 344-361): if validation
passed, run the destroy; a falsy (zero) destroyed count yields
`res.sendStatus(404)`; otherwise `{ result: 200, data }`.  On validation
errors respond `422 { errors }` without touching persistence. -/
def deleteUserHandler (db : List User) (idStr : String)
    (errors : List FieldError) : HandlerResult :=
  if errors.isEmpty then
    let r := deleteUser db idStr
    if r.1 = 0 then ⟨⟨404, none⟩, true⟩
    else ⟨⟨200, some (.obj [("result", .num 200), ("data", .num r.1)])⟩, true⟩
  else ⟨⟨422, some (.obj [("errors", .arr (errors.map fieldErrorToJson))])⟩,
        false⟩

/-! ### Exception flow

The routes wrap their bodies in `try { ... } catch (err) { next(err) }`.
Four of the six handlers — `GET /` (line 81), `GET /:id` (line 116),
`PUT /:id` (line 300) and `DELETE /:id` (line 344) — declare only
`(req, res)`, so the `next` referenced in their catch blocks is an
undeclared identifier and evaluating `next(err)` raises a
`ReferenceError`; the request then produces no response at all.
`POST /` (line 174) and `POST /login` (line 229) declare
`(req, res, next)` and forward the error to the error pipeline. -/

/-- What a route does with one request once thrown errors are accounted
for: a response was sent, the error was forwarded via `next(err)`, or the
catch block itself crashed. -/
inductive Outcome where
  | responded : Response → Outcome
  | forwarded : String → Outcome
  | crashed : String → Outcome

/-- The `try { body } catch (err) { next(err) }` wrapper common to all six
routes.  When the handler does not declare `next`, the catch block's
`next(err)` call raises a `ReferenceError` instead of forwarding. -/
def tryCatchNext (declaresNext : Bool) (body : Except String Response) :
    Outcome :=
  match body with
  | .ok r => .responded r
  | .error e =>
      if declaresNext then .forwarded e
      else .crashed "ReferenceError: next is not defined"

/-- `GET /` is declared `async (req, res)` (src/index.js line 81). -/
def getUsersDeclaresNext : Bool := false

/-- `GET /:id` is declared `async (req, res)` (src/index.js line 116). -/
def getUserDeclaresNext : Bool := false

/-- `POST /` is declared `async (req, res, next)` (src/index.js line 174). -/
def createUserDeclaresNext : Bool := true

/-- `POST /login` is declared `async (req, res, next)` (line 229). -/
def loginDeclaresNext : Bool := true

/-- `PUT /:id` is declared `async (req, res)` (src/index.js line 300). -/
def updateUserDeclaresNext : Bool := false

/-- `DELETE /:id` is declared `async (req, res)` (src/index.js line 344). -/
def deleteUserDeclaresNext : Bool := false

/-- Modelled from the spec: the error-handler middleware chain registered in
the application (src/unnamed/part_000 lines 49-52) ends in
`handleAllOtherErrors`, which maps any uncaught failure to a 500
`InternalFailure` response with detail withheld from the client (§7). -/
def errorPipeline (_err : String) : Response :=
  ⟨500, some (.obj [("error", .str "InternalFailure")])⟩

/-- A forwarded error reaches the error pipeline; a crashed catch block
produces no response at all. -/
def dispatchOutcome (o : Outcome) : Option Response :=
  match o with
  | .responded r => some r
  | .forwarded e => some (errorPipeline e)
  | .crashed _ => none

/-- The `GET /` route with the persistence call's result made explicit:
`userController.getUsers()` either returns the user list or throws. -/
def runGetUsersRoute (fetch : Except String (List User)) : Option Response :=
  dispatchOutcome (tryCatchNext getUsersDeclaresNext
    (fetch.map (fun d => ⟨200, some (.obj [("result", .num 200),
                                           ("data", .arr (d.map userToJson))])⟩)))

/-- The `DELETE /:id` route (validation passed) with the persistence call's
result made explicit: `userController.deleteUser(id)` either returns the
destroyed-row count or throws. -/
def runDeleteRoute (del : Except String Nat) : Option Response :=
  dispatchOutcome (tryCatchNext deleteUserDeclaresNext
    (del.map (fun n =>
      if n = 0 then ⟨404, none⟩
      else ⟨200, some (.obj [("result", .num 200), ("data", .num n)])⟩)))

/-- The `POST /` route (validation passed) with the hashing/persistence
steps' result made explicit: they either return the created record or
throw. -/
def runCreateRoute (persist : Except String User) : Option Response :=
  dispatchOutcome (tryCatchNext createUserDeclaresNext
    (persist.map (fun u => ⟨200, some (.obj [("result", .num 200),
                                             ("data", userToJson u)])⟩)))

/-! ### Concrete data used by witnesses -/

/-- A stored hash of the plaintext `"pw"` under salt `"salt0"`. -/
def demoHash : BcryptHash := hashSync "pw" "salt0"

/-- A concrete user record. -/
def demoUser : User := ⟨1, "Alice", "alice@example.com", demoHash⟩

/-- A concrete credential store holding only `demoUser`. -/
def demoDb : List User := [demoUser]

/-! ### Theorems -/

/-- Claim C6: `compare(P, hash(P))` is true for every plaintext; for
distinct plaintexts `compare(P1, hash(P2))` is false; and because the
per-call salt is embedded in the output, two `hash` calls on the same
plaintext (with distinct per-call salts) produce different outputs. -/
theorem C6_hash_compare_roundtrip :
    (∀ p s : String, compareSync p (hashSync p s) = true)
    ∧ (∀ p1 p2 s : String, p1 ≠ p2 → compareSync p1 (hashSync p2 s) = false)
    ∧ (∀ p s1 s2 : String, s1 ≠ s2 → hashSync p s1 ≠ hashSync p s2) := by
  refine ⟨fun p s => ?_, fun p1 p2 s h => ?_, fun p s1 s2 h => ?_⟩
  · simp [compareSync, hashSync]
  · simp only [compareSync, hashSync]
    exact beq_eq_false_iff_ne.mpr h
  · intro hc
    exact h (congrArg BcryptHash.salt hc)

/-- Witness for C6 at concrete plaintexts and salts. -/
theorem C6_hash_compare_roundtrip_witness :
    compareSync "pw" (hashSync "pw" "s1") = true
    ∧ compareSync "pw" (hashSync "qw" "s1") = false
    ∧ hashSync "pw" "s1" ≠ hashSync "pw" "s2" :=
  ⟨C6_hash_compare_roundtrip.1 "pw" "s1",
   C6_hash_compare_roundtrip.2.1 "pw" "qw" "s1" (by decide),
   C6_hash_compare_roundtrip.2.2 "pw" "s1" "s2" (by decide)⟩

/-- Claim C7: verifying a token immediately after it was issued for a user
id succeeds and returns that id. -/
theorem C7_verify_after_issue (uid : Nat) (secret : String) (now : Nat) :
    jwtVerify (jwtSign uid secret now) secret now = some uid := by
  unfold jwtVerify jwtSign
  rw [if_pos]
  exact ⟨rfl, Nat.lt_add_of_pos_right (by decide)⟩

/-- Claim C9: `issue(userId)` produces a signed token whose claim embeds
exactly that user id and whose expiration is the issuance time plus one
hour (3600 seconds); in the login handler the token placed in the success
payload is exactly the one issued for the authenticated user's id. -/
theorem C9_issue_claim_shape (uid : Nat) (secret : String) (now : Nat)
    (db : List User) (errs : List FieldError) (email pw : String) (u : User)
    (hfind : getUserByEmail db email = some u)
    (hcmp : compareSync pw u.password = true) :
    (jwtSign uid secret now).claim.id = uid
    ∧ (jwtSign uid secret now).claim.exp = now + 3600
    ∧ (jwtSign uid secret now).sig = ⟨secret, (jwtSign uid secret now).claim⟩
    ∧ (((loginHandler db errs secret now email pw).response.body.bind
          (fun b => b.getField "data")).bind (fun d => d.getField "token"))
        = some (.tok (jwtSign u.id secret now)) := by
  refine ⟨rfl, rfl, rfl, ?_⟩
  simp [loginHandler, hfind, hcmp, Json.getField, List.lookup]

/-- Witness for C9 at a concrete store, user and credentials. -/
theorem C9_issue_claim_shape_witness :
    (jwtSign 7 "secret" 100).claim.id = 7
    ∧ (jwtSign 7 "secret" 100).claim.exp = 100 + 3600
    ∧ (jwtSign 7 "secret" 100).sig = ⟨"secret", (jwtSign 7 "secret" 100).claim⟩
    ∧ (((loginHandler demoDb [] "secret" 100 "alice@example.com" "pw").response.body.bind
          (fun b => b.getField "data")).bind (fun d => d.getField "token"))
        = some (.tok (jwtSign demoUser.id "secret" 100)) :=
  C9_issue_claim_shape 7 "secret" 100 demoDb [] "alice@example.com" "pw" demoUser
    rfl rfl

/-- Claim C2: the login flow yields 404 when no user has the given email,
404 when the email is known but the password does not match the stored
hash, and 200 with a token in the payload when both match; no status other
than 200 or 404 is produced by the handler. -/
theorem C2_login_status_taxonomy (db : List User) (errs : List FieldError)
    (secret : String) (now : Nat) (email pw : String) :
    (getUserByEmail db email = none →
      (loginHandler db errs secret now email pw).response.status = 404)
    ∧ (∀ u, getUserByEmail db email = some u →
        compareSync pw u.password = false →
        (loginHandler db errs secret now email pw).response.status = 404)
    ∧ (∀ u, getUserByEmail db email = some u →
        compareSync pw u.password = true →
        (loginHandler db errs secret now email pw).response.status = 200
        ∧ (((loginHandler db errs secret now email pw).response.body.bind
              (fun b => b.getField "data")).bind (fun d => d.getField "token"))
            = some (.tok (jwtSign u.id secret now)))
    ∧ ((loginHandler db errs secret now email pw).response.status = 200
       ∨ (loginHandler db errs secret now email pw).response.status = 404) := by
  refine ⟨fun h => ?_, fun u hf hc => ?_, fun u hf hc => ?_, ?_⟩
  · simp [loginHandler, h]
  · simp [loginHandler, hf, hc]
  · constructor
    · simp [loginHandler, hf, hc]
    · simp [loginHandler, hf, hc, Json.getField, List.lookup]
  · rcases hf : getUserByEmail db email with _ | u
    · simp [loginHandler, hf]
    · rcases hc : compareSync pw u.password <;> simp [loginHandler, hf, hc]

/-- Witness for C2: all three branches exercised on a concrete store. -/
theorem C2_login_status_taxonomy_witness :
    ((loginHandler demoDb [] "s" 0 "nobody@example.com" "pw").response.status = 404)
    ∧ ((loginHandler demoDb [] "s" 0 "alice@example.com" "wrong").response.status = 404)
    ∧ ((loginHandler demoDb [] "s" 0 "alice@example.com" "pw").response.status = 200) :=
  ⟨(C2_login_status_taxonomy demoDb [] "s" 0 "nobody@example.com" "pw").1 rfl,
   (C2_login_status_taxonomy demoDb [] "s" 0 "alice@example.com" "wrong").2.1
     demoUser rfl rfl,
   ((C2_login_status_taxonomy demoDb [] "s" 0 "alice@example.com" "pw").2.2.1
     demoUser rfl rfl).1⟩

/-- Counterexample to claim C1: on a concrete store, a successful login
(status 200) returns a user object that has a `password` field holding
the stored password hash — the hash is contained in the response body. -/
theorem C1_counterexample :
    (loginHandler demoDb [] "secret" 0 "alice@example.com" "pw").response.status = 200
    ∧ ((((loginHandler demoDb [] "secret" 0 "alice@example.com" "pw").response.body.bind
          (fun b => b.getField "data")).bind (fun d => d.getField "user")).bind
          (fun uj => uj.getField "password"))
        = some (.str (renderHash demoUser.password)) :=
  ⟨rfl, rfl⟩

/-- Claim C1 as amended: the user object placed in a successful login
response is the full serialized user record, whose `password` field holds
the stored password hash; the hash is therefore exposed in the login
output. -/
theorem C1_amended_login_exposes_hash (db : List User) (errs : List FieldError)
    (secret : String) (now : Nat) (email pw : String) (u : User)
    (hfind : getUserByEmail db email = some u)
    (hcmp : compareSync pw u.password = true) :
    (loginHandler db errs secret now email pw).response.status = 200
    ∧ (((loginHandler db errs secret now email pw).response.body.bind
          (fun b => b.getField "data")).bind (fun d => d.getField "user"))
        = some (userToJson u)
    ∧ (userToJson u).getField "password" = some (.str (renderHash u.password)) := by
  refine ⟨?_, ?_, ?_⟩
  · simp [loginHandler, hfind, hcmp]
  · simp [loginHandler, hfind, hcmp, Json.getField, List.lookup]
  · simp [userToJson, Json.getField, List.lookup]

/-- Witness for the amended C1 on a concrete store. -/
theorem C1_amended_login_exposes_hash_witness :
    (loginHandler demoDb [] "secret" 0 "alice@example.com" "pw").response.status = 200
    ∧ (((loginHandler demoDb [] "secret" 0 "alice@example.com" "pw").response.body.bind
          (fun b => b.getField "data")).bind (fun d => d.getField "user"))
        = some (userToJson demoUser)
    ∧ (userToJson demoUser).getField "password"
        = some (.str (renderHash demoUser.password)) :=
  C1_amended_login_exposes_hash demoDb [] "secret" 0 "alice@example.com" "pw"
    demoUser rfl rfl

/-- Claim C5: the two login 404 responses have different bodies — an
unknown email yields the validator-error array (empty when validation
passed) while a known email with a wrong password yields the literal
message list; with validation passed the two response bodies are
distinct. -/
theorem C5_login_404_bodies_distinguishable (db : List User)
    (errs : List FieldError) (secret : String) (now : Nat)
    (email pw : String) :
    (getUserByEmail db email = none →
      (loginHandler db errs secret now email pw).response
        = ⟨404, some (.obj [("errors", .arr (errs.map fieldErrorToJson))])⟩)
    ∧ (∀ u, getUserByEmail db email = some u →
        compareSync pw u.password = false →
        (loginHandler db errs secret now email pw).response
          = ⟨404, some (.obj [("errors",
              .arr [.str "Invalid email or password"])])⟩)
    ∧ (Response.mk 404 (some (.obj [("errors", .arr ([] : List Json))]))
        ≠ Response.mk 404 (some (.obj [("errors",
            .arr [.str "Invalid email or password"])]))) := by
  refine ⟨fun h => ?_, fun u hf hc => ?_, ?_⟩
  · simp [loginHandler, h]
  · simp [loginHandler, hf, hc]
  · intro hc
    have hbody := congrArg Response.body hc
    simp at hbody

/-- Witness for C5: both 404 branches on a concrete store with an empty
validator result. -/
theorem C5_login_404_bodies_distinguishable_witness :
    (loginHandler demoDb [] "s" 0 "nobody@example.com" "pw").response
      = ⟨404, some (.obj [("errors", .arr (([] : List FieldError).map fieldErrorToJson))])⟩
    ∧ (loginHandler demoDb [] "s" 0 "alice@example.com" "wrong").response
      = ⟨404, some (.obj [("errors", .arr [.str "Invalid email or password"])])⟩ :=
  ⟨(C5_login_404_bodies_distinguishable demoDb [] "s" 0 "nobody@example.com" "pw").1 rfl,
   (C5_login_404_bodies_distinguishable demoDb [] "s" 0 "alice@example.com" "wrong").2.1
     demoUser rfl rfl⟩

/-- Claim C10: with a valid id parameter and no matching record,
`GET /:id` and `DELETE /:id` answer with a bare 404 (no JSON body), while
the login 404s carry a JSON body with an `errors` field — two different
404 shapes. -/
theorem C10_two_404_shapes (db : List User) (idStr : String)
    (errs : List FieldError) (secret : String) (now : Nat)
    (email pw : String) :
    (idParamValidator idStr = [] → getUser db idStr = none →
      (getUserHandler db idStr (idParamValidator idStr)).response = ⟨404, none⟩)
    ∧ (idParamValidator idStr = [] → (deleteUser db idStr).1 = 0 →
      (deleteUserHandler db idStr (idParamValidator idStr)).response = ⟨404, none⟩)
    ∧ (getUserByEmail db email = none →
      (loginHandler db errs secret now email pw).response.status = 404
      ∧ (loginHandler db errs secret now email pw).response.body
          = some (.obj [("errors", .arr (errs.map fieldErrorToJson))]))
    ∧ (∀ u, getUserByEmail db email = some u →
        compareSync pw u.password = false →
        (loginHandler db errs secret now email pw).response.body
          = some (.obj [("errors", .arr [.str "Invalid email or password"])]))
    ∧ (∀ j : Json, (none : Option Json) ≠ some j) := by
  refine ⟨fun hv hu => ?_, fun hv hd => ?_, fun h => ?_, fun u hf hc => ?_,
    fun j h => Option.noConfusion h⟩
  · simp [getUserHandler, hv, hu]
  · simp [deleteUserHandler, hv, hd]
  · exact ⟨by simp [loginHandler, h], by simp [loginHandler, h]⟩
  · simp [loginHandler, hf, hc]

/-- Witness for C10 on a concrete store: id 2 passes validation but
matches no record. -/
theorem C10_two_404_shapes_witness :
    (getUserHandler demoDb "2" (idParamValidator "2")).response = ⟨404, none⟩
    ∧ (deleteUserHandler demoDb "2" (idParamValidator "2")).response = ⟨404, none⟩
    ∧ (loginHandler demoDb [] "s" 0 "nobody@example.com" "pw").response.body
        = some (.obj [("errors", .arr (([] : List FieldError).map fieldErrorToJson))]) :=
  ⟨(C10_two_404_shapes demoDb "2" [] "s" 0 "nobody@example.com" "pw").1
     (by decide) (by decide),
   (C10_two_404_shapes demoDb "2" [] "s" 0 "nobody@example.com" "pw").2.1
     (by decide) (by decide),
   ((C10_two_404_shapes demoDb "2" [] "s" 0 "nobody@example.com" "pw").2.2.1 rfl).2⟩

/-- Claim C8: `GET /api/users` answers 401 when no token is supplied, when
the token's expiration has passed, and when the token's signature does not
match a recomputation with the shared secret; with a freshly issued valid
token it answers 200. -/
theorem C8_token_gate (db : List User) (secret : String) (time : Nat) :
    (getUsersHandler db none secret time).response.status = 401
    ∧ (∀ t : JwtToken, t.claim.exp ≤ time →
        (getUsersHandler db (some t) secret time).response.status = 401)
    ∧ (∀ t : JwtToken, t.sig ≠ ⟨secret, t.claim⟩ →
        (getUsersHandler db (some t) secret time).response.status = 401)
    ∧ (∀ uid : Nat,
        (getUsersHandler db (some (jwtSign uid secret time)) secret time).response.status
          = 200) := by
  refine ⟨rfl, fun t h => ?_, fun t h => ?_, fun uid => ?_⟩
  · simp only [getUsersHandler, verifyTokenMw, jwtVerify]
    rw [if_neg (fun hc => absurd hc.2 (Nat.not_lt.mpr h))]
  · simp only [getUsersHandler, verifyTokenMw, jwtVerify]
    rw [if_neg (fun hc => h hc.1)]
  · have hv : jwtVerify (jwtSign uid secret time) secret time = some uid := by
      unfold jwtVerify jwtSign
      rw [if_pos]
      exact ⟨rfl, Nat.lt_add_of_pos_right (by decide)⟩
    simp [getUsersHandler, verifyTokenMw, hv]

/-- Witness for C8: the three 401 branches and the 200 branch on concrete
tokens (an expired one, a tampered one, and a fresh one). -/
theorem C8_token_gate_witness :
    (getUsersHandler demoDb none "s" 10).response.status = 401
    ∧ (getUsersHandler demoDb (some ⟨⟨1, 5⟩, ⟨"s", ⟨1, 5⟩⟩⟩) "s" 10).response.status = 401
    ∧ (getUsersHandler demoDb (some ⟨⟨1, 99⟩, ⟨"wrong", ⟨1, 99⟩⟩⟩) "s" 10).response.status = 401
    ∧ (getUsersHandler demoDb (some (jwtSign 1 "s" 10)) "s" 10).response.status = 200 :=
  ⟨(C8_token_gate demoDb "s" 10).1,
   (C8_token_gate demoDb "s" 10).2.1 ⟨⟨1, 5⟩, ⟨"s", ⟨1, 5⟩⟩⟩ (by decide),
   (C8_token_gate demoDb "s" 10).2.2.1 ⟨⟨1, 99⟩, ⟨"wrong", ⟨1, 99⟩⟩⟩ (by decide),
   (C8_token_gate demoDb "s" 10).2.2.2 1⟩

/-- Counterexample to claim C3: on the login endpoint the validator
reported one error, yet the handler reached the persistence layer
(`getUserByEmail` runs before the error check) and answered 404, not
422. -/
theorem C3_counterexample :
    (loginHandler [] [⟨"email", "Invalid value"⟩] "s" 0 "x@y.z" "pw").persisted = true
    ∧ (loginHandler [] [⟨"email", "Invalid value"⟩] "s" 0 "x@y.z" "pw").response.status
        = 404
    ∧ (loginHandler [] [⟨"email", "Invalid value"⟩] "s" 0 "x@y.z" "pw").response.status
        ≠ 422 :=
  ⟨rfl, rfl, by decide⟩

/-- Claim C3 as amended: on `GET /:id`, `POST /`, `PUT /:id` and
`DELETE /:id` a non-empty validation result yields 422 with the ordered
error list and the persistence layer is never reached; the login endpoint
is the exception — it always calls `getUserByEmail` before inspecting the
validation result and never answers 422. -/
theorem C3_amended_validation_gate (db : List User) (errs : List FieldError)
    (idStr : String) (req : NewUserRequest) (salt : String) (upd : UserUpdate)
    (secret : String) (now : Nat) (email pw : String)
    (hne : errs ≠ []) :
    (getUserHandler db idStr errs).response
        = ⟨422, some (.obj [("errors", .arr (errs.map fieldErrorToJson))])⟩
    ∧ (getUserHandler db idStr errs).persisted = false
    ∧ (createUserHandler db req salt errs).response
        = ⟨422, some (.obj [("errors", .arr (errs.map fieldErrorToJson))])⟩
    ∧ (createUserHandler db req salt errs).persisted = false
    ∧ (updateUserHandler db idStr upd errs).response
        = ⟨422, some (.obj [("errors", .arr (errs.map fieldErrorToJson))])⟩
    ∧ (updateUserHandler db idStr upd errs).persisted = false
    ∧ (deleteUserHandler db idStr errs).response
        = ⟨422, some (.obj [("errors", .arr (errs.map fieldErrorToJson))])⟩
    ∧ (deleteUserHandler db idStr errs).persisted = false
    ∧ (loginHandler db errs secret now email pw).persisted = true
    ∧ (loginHandler db errs secret now email pw).response.status ≠ 422 := by
  have hempty : errs.isEmpty = false := by
    cases errs with
    | nil => exact absurd rfl hne
    | cons a t => rfl
  refine ⟨?_, ?_, ?_, ?_, ?_, ?_, ?_, ?_, ?_, ?_⟩
  · simp [getUserHandler, hempty]
  · simp [getUserHandler, hempty]
  · simp [createUserHandler, hempty]
  · simp [createUserHandler, hempty]
  · simp [updateUserHandler, hempty]
  · simp [updateUserHandler, hempty]
  · simp [deleteUserHandler, hempty]
  · simp [deleteUserHandler, hempty]
  · rcases hf : getUserByEmail db email with _ | u
    · simp [loginHandler, hf]
    · rcases hc : compareSync pw u.password <;> simp [loginHandler, hf, hc]
  · rcases hf : getUserByEmail db email with _ | u
    · simp [loginHandler, hf]
    · rcases hc : compareSync pw u.password <;> simp [loginHandler, hf, hc]

/-- Witness for the amended C3 with a concrete one-error validation
result. -/
theorem C3_amended_validation_gate_witness :
    (getUserHandler demoDb "abc" [⟨"id", "must be a positive integer"⟩]).response
        = ⟨422, some (.obj [("errors",
            .arr ([⟨"id", "must be a positive integer"⟩].map fieldErrorToJson))])⟩
    ∧ (getUserHandler demoDb "abc" [⟨"id", "must be a positive integer"⟩]).persisted
        = false
    ∧ (loginHandler demoDb [⟨"email", "Invalid value"⟩] "s" 0 "x@y.z" "pw").persisted
        = true :=
  ⟨(C3_amended_validation_gate demoDb [⟨"id", "must be a positive integer"⟩]
      "abc" ⟨"n", "e", "p"⟩ "salt" ⟨"n", "e"⟩ "s" 0 "x@y.z" "pw" (by decide)).1,
   (C3_amended_validation_gate demoDb [⟨"id", "must be a positive integer"⟩]
      "abc" ⟨"n", "e", "p"⟩ "salt" ⟨"n", "e"⟩ "s" 0 "x@y.z" "pw" (by decide)).2.1,
   (C3_amended_validation_gate demoDb [⟨"email", "Invalid value"⟩]
      "abc" ⟨"n", "e", "p"⟩ "salt" ⟨"n", "e"⟩ "s" 0 "x@y.z" "pw" (by decide)).2.2.2.2.2.2.2.2.1⟩

/-- Claim C4 evaluated at its failing inputs: when the persistence step
throws on `GET /` or `DELETE /:id`, the catch block's `next(err)` raises
`ReferenceError: next is not defined` (those handlers do not declare
`next`), so no response at all is produced — the error never reaches the
generic 500 handler; `POST /`, which does declare `next`, forwards the
same failure to the error pipeline and yields the 500 `InternalFailure`
response. -/
theorem C4_next_undeclared_no_500 :
    runGetUsersRoute (.error "db failure") = none
    ∧ runDeleteRoute (.error "db failure") = none
    ∧ runCreateRoute (.error "db failure") = some (errorPipeline "db failure") :=
  ⟨rfl, rfl, rfl⟩

end BloggingApp
